import Mathlib

/-!
Verification of the Refloat brake-tilt controller (`brake_tilt.c`).

The C module is embedded shallowly over `ℚ`: every `float` becomes a
rational, every `int` becomes `ℤ`, and `brake_tilt_update` becomes a pure
state transformer on the `BrakeTilt` record.  The body of `brake_tilt_update`
is split into named phase functions that correspond, section by section, to
the commented sections of the C function; `brake_tilt_update` composes them
in the source's order.  The helpers `sign` and `rate_limitf` come from
`utils.h`, which is not part of the sources here; they are modelled from the
specification (see their doc comments).
-/

namespace Refloat

/-- Motor telemetry snapshot (`MotorData`), fields as consumed by
`brake_tilt_update`. -/
structure MotorData where
  braking : Bool
  abs_erpm : ℚ
  erpm : ℚ
  erpm_sign : ℤ
deriving DecidableEq

/-- Adaptive-torque-response snapshot (`ATR`), fields as consumed by
`brake_tilt_update`. -/
structure ATR where
  accel_diff : ℚ
  off_step_size : ℚ
  on_step_size : ℚ
deriving DecidableEq

/-- IMU snapshot, fields as consumed by `brake_tilt_update`. -/
structure IMU where
  pitch : ℚ
  balance_pitch : ℚ
deriving DecidableEq

/-- The configuration fields of `RefloatConfig` consumed by this module. -/
structure RefloatConfig where
  braketilt_strength : ℚ
  incline_threshold_default : ℚ
  hold_tilt_min_target : ℚ
  hold_tilt_time_window : ℚ
  hold_tilt_pitch_delta_threshold : ℚ
  hold_tilt_angle : ℚ
  hold_tilt_timeout : ℤ
  braketilt_lingering : ℚ
deriving DecidableEq

/-- The persistent controller state (`BrakeTilt` struct of `brake_tilt.h`). -/
structure BrakeTilt where
  factor : ℚ
  target : ℚ
  setpoint : ℚ
  hold_tilt_active : Bool
  hold_tilt_value : ℚ
  hold_counter : ℤ
  pitch_timer : ℚ
  pitch_at_trigger : ℚ
  hold_tilt_pitch_drop_detected : ℤ
deriving DecidableEq

/-- Modelled from the spec: the sign helper of `utils.h` (missing from the
sources).  The spec describes motor direction signs as integers in
`{-1, 0, 1}`, so `sign` maps a rational to its three-valued sign. -/
def sign (x : ℚ) : ℤ :=
  if x < 0 then -1 else if 0 < x then 1 else 0

/-- Modelled from the spec: the rate limiter of `utils.h` (missing from the
sources): "Move `setpoint` toward `target` by at most that step size (a
standard rate limiter: clamp the per-tick delta, do not overshoot)". -/
def rate_limitf (value target step : ℚ) : ℚ :=
  if |target - value| < step then target
  else if 0 < target - value then value + step
  else value - step

/-- `brake_tilt_reset`: zero all transient state. -/
def brake_tilt_reset (bt : BrakeTilt) : BrakeTilt :=
  { bt with
    target := 0
    setpoint := 0
    hold_tilt_active := false
    hold_tilt_value := 0
    hold_counter := 0
    pitch_timer := 0
    pitch_at_trigger := 0
    hold_tilt_pitch_drop_detected := 0 }

/-- `brake_tilt_init`: zero the derived gain, then reset. -/
def brake_tilt_init (bt : BrakeTilt) : BrakeTilt :=
  brake_tilt_reset { bt with factor := 0 }

/-- `brake_tilt_configure`: recompute `factor` from the strength parameter. -/
def brake_tilt_configure (bt : BrakeTilt) (config : RefloatConfig) : BrakeTilt :=
  if config.braketilt_strength = 0 then
    { bt with factor := 0 }
  else
    { bt with factor := -(1/2 + (20 - config.braketilt_strength) / 5) }

/-- The global disable gate condition of `brake_tilt_update` (wheelslip, or
incline/decline beyond the default threshold). -/
def gate_condition (atr : ATR) (config : RefloatConfig) (wheelslip : Bool) : Prop :=
  wheelslip = true ∨ atr.accel_diff > config.incline_threshold_default ∨
    atr.accel_diff < -config.incline_threshold_default

instance (atr : ATR) (config : RefloatConfig) (wheelslip : Bool) :
    Decidable (gate_condition atr config wheelslip) := by
  unfold gate_condition; infer_instance

/-- The downhill damper computed inside the brake-tilt activation branch of
`brake_tilt_update`. -/
def downhill_damper (motor : MotorData) (atr : ATR) : ℚ :=
  if (motor.erpm > 1000 ∧ atr.accel_diff < -1) ∨
      (motor.erpm < -1000 ∧ atr.accel_diff > 1) then
    1 + |atr.accel_diff| / 2
  else 1

/-- The "Brake-Tilt Activation" section of `brake_tilt_update` (recomputes
`target`). -/
def brake_tilt_target_phase (bt : BrakeTilt) (motor : MotorData) (atr : ATR)
    (balance_offset : ℚ) : BrakeTilt :=
  if bt.factor < 0 ∧ motor.braking = true ∧ motor.abs_erpm > 2000 then
    if sign balance_offset ≠ motor.erpm_sign then
      let d := downhill_damper motor atr
      let bt1 := { bt with target := balance_offset / bt.factor / d }
      if d > 2 then { bt1 with target := 0 } else bt1
    else bt
  else { bt with target := 0 }

/-- The "Detect rapid pitch drop" section of `brake_tilt_update`. -/
def pitch_drop_phase (bt : BrakeTilt) (config : RefloatConfig) (imu : IMU)
    (dt : ℚ) (wheelslip : Bool) : BrakeTilt :=
  if bt.hold_tilt_active = false ∧ |bt.target| > config.hold_tilt_min_target ∧
      wheelslip = false then
    if bt.pitch_timer ≤ 0 then
      { bt with
        pitch_at_trigger := imu.pitch
        pitch_timer := config.hold_tilt_time_window
        hold_tilt_pitch_drop_detected := 0 }
    else
      let bt1 :=
        if bt.pitch_at_trigger - imu.pitch > config.hold_tilt_pitch_delta_threshold then
          { bt with hold_tilt_pitch_drop_detected := 1 }
        else bt
      { bt1 with pitch_timer := bt1.pitch_timer - dt }
  else
    { bt with pitch_timer := 0, hold_tilt_pitch_drop_detected := 0 }

/-- The "Activate Hold-Tilt if pitch drop detected" section of
`brake_tilt_update`. -/
def hold_tilt_activation_phase (bt : BrakeTilt) (config : RefloatConfig) : BrakeTilt :=
  if bt.hold_tilt_active = false ∧ bt.hold_tilt_pitch_drop_detected ≠ 0 then
    { bt with
      hold_tilt_active := true
      hold_tilt_value := config.hold_tilt_angle
      hold_counter := config.hold_tilt_timeout
      pitch_timer := 0
      hold_tilt_pitch_drop_detected := 0 }
  else bt

/-- The "Hold-Tilt Behavior" section of `brake_tilt_update` (only entered
when hold-tilt is active; sets the setpoint and counts down). -/
def hold_tilt_behavior_phase (bt : BrakeTilt) (imu : IMU) : BrakeTilt :=
  let bt1 := { bt with setpoint := bt.hold_tilt_value }
  let bt2 :=
    if imu.balance_pitch < bt1.hold_tilt_value then
      { bt1 with setpoint := bt1.setpoint + 1/2 * (bt1.hold_tilt_value - imu.balance_pitch) }
    else bt1
  let bt3 := { bt2 with hold_counter := bt2.hold_counter - 1 }
  if bt3.hold_counter ≤ 0 then
    { bt3 with hold_tilt_active := false, hold_counter := 0 }
  else bt3

/-- The "Brake-Tilt Step Logic" step-size selection of `brake_tilt_update`. -/
def braketilt_step_size (bt : BrakeTilt) (motor : MotorData) (atr : ATR)
    (config : RefloatConfig) : ℚ :=
  let s0 := atr.off_step_size / config.braketilt_lingering
  let s1 :=
    if |bt.target| > |bt.setpoint| then atr.on_step_size * (3/2)
    else if motor.abs_erpm < 800 then atr.on_step_size
    else s0
  if motor.abs_erpm < 500 then s1 / 2 else s1

/-- `brake_tilt_update`: the per-tick transition, composing the phases in the
source's order.  The early `return` of the disable gate and of the hold-tilt
behavior section become the two `if` short-circuits. -/
def brake_tilt_update (bt : BrakeTilt) (motor : MotorData) (atr : ATR)
    (config : RefloatConfig) (balance_offset : ℚ) (imu : IMU) (dt : ℚ)
    (wheelslip : Bool) : BrakeTilt :=
  if gate_condition atr config wheelslip then
    let bt1 := { bt with target := 0 }
    if bt1.hold_tilt_active then
      { bt1 with hold_tilt_active := false, hold_counter := 0 }
    else bt1
  else
    let bt1 := brake_tilt_target_phase bt motor atr balance_offset
    let bt2 := pitch_drop_phase bt1 config imu dt wheelslip
    let bt3 := hold_tilt_activation_phase bt2 config
    if bt3.hold_tilt_active then
      hold_tilt_behavior_phase bt3 imu
    else
      { bt3 with
        setpoint := rate_limitf bt3.setpoint bt3.target
          (braketilt_step_size bt3 motor atr config) }

/-- `brake_tilt_winddown`: exponential decay of setpoint and target, and
clearing of the hold-tilt state. -/
def brake_tilt_winddown (bt : BrakeTilt) : BrakeTilt :=
  let bt1 := { bt with setpoint := bt.setpoint * (995/1000) }
  let bt2 := { bt1 with target := bt1.target * (99/100) }
  if bt2.hold_tilt_active then
    { bt2 with hold_tilt_active := false, hold_counter := 0 }
  else bt2

/-! Concrete fixtures used by witnesses and counterexamples. -/

/-- A quiescent controller state with the gain configured (factor -3/2). -/
def btQuiet : BrakeTilt := ⟨-3/2, 0, 0, false, 0, 0, 0, 0, 0⟩

/-- A state with hold-tilt engaged (value 7, two ticks remaining). -/
def btHold : BrakeTilt := ⟨-3/2, 0, 0, true, 7, 2, 0, 0, 0⟩

/-- A state with an open pitch-monitoring window (baseline pitch 5,
1/10 s remaining). -/
def btWindow : BrakeTilt := ⟨-3/2, 0, 0, false, 0, 0, 1/10, 5, 0⟩

/-- A state violating the hold invariant: hold-tilt inactive but with a
stale nonzero counter. -/
def btStale : BrakeTilt := ⟨0, 0, 0, false, 0, 7, 0, 0, 0⟩

/-- A standard configuration: strength 10, incline threshold 4, hold-tilt
min target 1, window 1/2 s, pitch-delta threshold 1, hold angle 7,
timeout 3 ticks, lingering divisor 2. -/
def cfgStd : RefloatConfig := ⟨10, 4, 1, 1/2, 1, 7, 3, 2⟩

/-- The standard configuration with brake-tilt strength 25 instead. -/
def cfgStrong : RefloatConfig := ⟨25, 4, 1, 1/2, 1, 7, 3, 2⟩

/-- Fast braking motor snapshot (erpm 2500, forward). -/
def motorBrake : MotorData := ⟨true, 2500, 2500, 1⟩

/-- Braking motor snapshot at erpm 1500 (downhill-damper scenario). -/
def motorMid : MotorData := ⟨true, 2500, 1500, 1⟩

/-- Slow free-rolling motor snapshot (|erpm| = 600). -/
def motorSlow : MotorData := ⟨false, 600, 600, 1⟩

/-- Near-standstill motor snapshot (|erpm| = 400). -/
def motorCrawl : MotorData := ⟨false, 400, 400, 1⟩

/-- Level-ground ATR snapshot (both step sizes 1). -/
def atrFlat : ATR := ⟨0, 1, 1⟩

/-- Downhill ATR snapshot with accelDiff -2: the damper comes out exactly 2. -/
def atrDown2 : ATR := ⟨-2, 1, 1⟩

/-- Steeper downhill ATR snapshot with accelDiff -3: the damper is 5/2. -/
def atrDown3 : ATR := ⟨-3, 1, 1⟩

/-- IMU at zero. -/
def imuZero : IMU := ⟨0, 0⟩

/-- IMU with pitch 3 (a drop of 2 from the recorded baseline 5). -/
def imuDrop : IMU := ⟨3, 0⟩

/-! Field-preservation lemmas: each phase of `brake_tilt_update` writes only
the fields its section of the C code writes. -/

@[simp] theorem target_phase_factor (bt : BrakeTilt) (motor : MotorData) (atr : ATR)
    (bo : ℚ) : (brake_tilt_target_phase bt motor atr bo).factor = bt.factor := by
  simp only [brake_tilt_target_phase]; split_ifs <;> rfl

@[simp] theorem target_phase_setpoint (bt : BrakeTilt) (motor : MotorData) (atr : ATR)
    (bo : ℚ) : (brake_tilt_target_phase bt motor atr bo).setpoint = bt.setpoint := by
  simp only [brake_tilt_target_phase]; split_ifs <;> rfl

@[simp] theorem target_phase_hold_tilt_active (bt : BrakeTilt) (motor : MotorData)
    (atr : ATR) (bo : ℚ) :
    (brake_tilt_target_phase bt motor atr bo).hold_tilt_active = bt.hold_tilt_active := by
  simp only [brake_tilt_target_phase]; split_ifs <;> rfl

@[simp] theorem target_phase_hold_tilt_value (bt : BrakeTilt) (motor : MotorData)
    (atr : ATR) (bo : ℚ) :
    (brake_tilt_target_phase bt motor atr bo).hold_tilt_value = bt.hold_tilt_value := by
  simp only [brake_tilt_target_phase]; split_ifs <;> rfl

@[simp] theorem target_phase_hold_counter (bt : BrakeTilt) (motor : MotorData)
    (atr : ATR) (bo : ℚ) :
    (brake_tilt_target_phase bt motor atr bo).hold_counter = bt.hold_counter := by
  simp only [brake_tilt_target_phase]; split_ifs <;> rfl

@[simp] theorem target_phase_pitch_timer (bt : BrakeTilt) (motor : MotorData)
    (atr : ATR) (bo : ℚ) :
    (brake_tilt_target_phase bt motor atr bo).pitch_timer = bt.pitch_timer := by
  simp only [brake_tilt_target_phase]; split_ifs <;> rfl

@[simp] theorem target_phase_pitch_at_trigger (bt : BrakeTilt) (motor : MotorData)
    (atr : ATR) (bo : ℚ) :
    (brake_tilt_target_phase bt motor atr bo).pitch_at_trigger = bt.pitch_at_trigger := by
  simp only [brake_tilt_target_phase]; split_ifs <;> rfl

@[simp] theorem target_phase_latch (bt : BrakeTilt) (motor : MotorData)
    (atr : ATR) (bo : ℚ) :
    (brake_tilt_target_phase bt motor atr bo).hold_tilt_pitch_drop_detected =
      bt.hold_tilt_pitch_drop_detected := by
  simp only [brake_tilt_target_phase]; split_ifs <;> rfl

@[simp] theorem pitch_drop_phase_factor (bt : BrakeTilt) (config : RefloatConfig)
    (imu : IMU) (dt : ℚ) (w : Bool) :
    (pitch_drop_phase bt config imu dt w).factor = bt.factor := by
  simp only [pitch_drop_phase]; split_ifs <;> rfl

@[simp] theorem pitch_drop_phase_target (bt : BrakeTilt) (config : RefloatConfig)
    (imu : IMU) (dt : ℚ) (w : Bool) :
    (pitch_drop_phase bt config imu dt w).target = bt.target := by
  simp only [pitch_drop_phase]; split_ifs <;> rfl

@[simp] theorem pitch_drop_phase_setpoint (bt : BrakeTilt) (config : RefloatConfig)
    (imu : IMU) (dt : ℚ) (w : Bool) :
    (pitch_drop_phase bt config imu dt w).setpoint = bt.setpoint := by
  simp only [pitch_drop_phase]; split_ifs <;> rfl

@[simp] theorem pitch_drop_phase_hold_tilt_active (bt : BrakeTilt) (config : RefloatConfig)
    (imu : IMU) (dt : ℚ) (w : Bool) :
    (pitch_drop_phase bt config imu dt w).hold_tilt_active = bt.hold_tilt_active := by
  simp only [pitch_drop_phase]; split_ifs <;> rfl

@[simp] theorem pitch_drop_phase_hold_tilt_value (bt : BrakeTilt) (config : RefloatConfig)
    (imu : IMU) (dt : ℚ) (w : Bool) :
    (pitch_drop_phase bt config imu dt w).hold_tilt_value = bt.hold_tilt_value := by
  simp only [pitch_drop_phase]; split_ifs <;> rfl

@[simp] theorem pitch_drop_phase_hold_counter (bt : BrakeTilt) (config : RefloatConfig)
    (imu : IMU) (dt : ℚ) (w : Bool) :
    (pitch_drop_phase bt config imu dt w).hold_counter = bt.hold_counter := by
  simp only [pitch_drop_phase]; split_ifs <;> rfl

@[simp] theorem activation_phase_factor (bt : BrakeTilt) (config : RefloatConfig) :
    (hold_tilt_activation_phase bt config).factor = bt.factor := by
  simp only [hold_tilt_activation_phase]; split_ifs <;> rfl

@[simp] theorem activation_phase_target (bt : BrakeTilt) (config : RefloatConfig) :
    (hold_tilt_activation_phase bt config).target = bt.target := by
  simp only [hold_tilt_activation_phase]; split_ifs <;> rfl

@[simp] theorem activation_phase_setpoint (bt : BrakeTilt) (config : RefloatConfig) :
    (hold_tilt_activation_phase bt config).setpoint = bt.setpoint := by
  simp only [hold_tilt_activation_phase]; split_ifs <;> rfl

@[simp] theorem activation_phase_pitch_at_trigger (bt : BrakeTilt) (config : RefloatConfig) :
    (hold_tilt_activation_phase bt config).pitch_at_trigger = bt.pitch_at_trigger := by
  simp only [hold_tilt_activation_phase]; split_ifs <;> rfl

@[simp] theorem behavior_phase_factor (bt : BrakeTilt) (imu : IMU) :
    (hold_tilt_behavior_phase bt imu).factor = bt.factor := by
  simp only [hold_tilt_behavior_phase]; split_ifs <;> rfl

@[simp] theorem behavior_phase_target (bt : BrakeTilt) (imu : IMU) :
    (hold_tilt_behavior_phase bt imu).target = bt.target := by
  simp only [hold_tilt_behavior_phase]; split_ifs <;> rfl

@[simp] theorem behavior_phase_hold_tilt_value (bt : BrakeTilt) (imu : IMU) :
    (hold_tilt_behavior_phase bt imu).hold_tilt_value = bt.hold_tilt_value := by
  simp only [hold_tilt_behavior_phase]; split_ifs <;> rfl

@[simp] theorem behavior_phase_pitch_timer (bt : BrakeTilt) (imu : IMU) :
    (hold_tilt_behavior_phase bt imu).pitch_timer = bt.pitch_timer := by
  simp only [hold_tilt_behavior_phase]; split_ifs <;> rfl

@[simp] theorem behavior_phase_pitch_at_trigger (bt : BrakeTilt) (imu : IMU) :
    (hold_tilt_behavior_phase bt imu).pitch_at_trigger = bt.pitch_at_trigger := by
  simp only [hold_tilt_behavior_phase]; split_ifs <;> rfl

@[simp] theorem behavior_phase_latch (bt : BrakeTilt) (imu : IMU) :
    (hold_tilt_behavior_phase bt imu).hold_tilt_pitch_drop_detected =
      bt.hold_tilt_pitch_drop_detected := by
  simp only [hold_tilt_behavior_phase]; split_ifs <;> rfl

/-- C1: on a tick with wheelslip, or with |accelDiff| strictly above the
default incline threshold, `brake_tilt_update` zeroes `target`, leaves
hold-tilt inactive (zeroing `holdCounter` when it was active, and leaving the
counter untouched otherwise), and returns without touching `setpoint`,
`pitch_timer`, `pitch_at_trigger` or the pitch-drop latch. -/
theorem brake_tilt_update_disable_gate (bt : BrakeTilt) (motor : MotorData) (atr : ATR)
    (config : RefloatConfig) (bo : ℚ) (imu : IMU) (dt : ℚ) (wheelslip : Bool)
    (h : wheelslip = true ∨ |atr.accel_diff| > config.incline_threshold_default) :
    (brake_tilt_update bt motor atr config bo imu dt wheelslip).target = 0 ∧
    (brake_tilt_update bt motor atr config bo imu dt wheelslip).hold_tilt_active = false ∧
    (bt.hold_tilt_active = true →
      (brake_tilt_update bt motor atr config bo imu dt wheelslip).hold_counter = 0) ∧
    (bt.hold_tilt_active = false →
      (brake_tilt_update bt motor atr config bo imu dt wheelslip).hold_counter =
        bt.hold_counter) ∧
    (brake_tilt_update bt motor atr config bo imu dt wheelslip).setpoint = bt.setpoint ∧
    (brake_tilt_update bt motor atr config bo imu dt wheelslip).pitch_timer =
      bt.pitch_timer ∧
    (brake_tilt_update bt motor atr config bo imu dt wheelslip).pitch_at_trigger =
      bt.pitch_at_trigger ∧
    (brake_tilt_update bt motor atr config bo imu dt wheelslip).hold_tilt_pitch_drop_detected =
      bt.hold_tilt_pitch_drop_detected := by
  have hg : gate_condition atr config wheelslip := by
    unfold gate_condition
    rcases h with h | h
    · exact Or.inl h
    · rcases lt_abs.mp h with h' | h'
      · exact Or.inr (Or.inl h')
      · exact Or.inr (Or.inr (by linarith))
  simp only [brake_tilt_update, if_pos hg]
  cases hact : bt.hold_tilt_active <;> simp [hact]

/-- C1 witness: a concrete wheelslip tick from the hold-tilt-active state has
`target = 0` afterwards. -/
theorem brake_tilt_update_disable_gate_witness :
    (brake_tilt_update btHold motorBrake atrFlat cfgStd 0 imuZero 0 true).target = 0 :=
  (brake_tilt_update_disable_gate btHold motorBrake atrFlat cfgStd 0 imuZero 0 true
    (Or.inl rfl)).1

/-- C2 counterexample: with the braking activation condition satisfied and
the downhill damper exactly 2 (accelDiff -2 at erpm 1500), the damper is
≥ 2 yet `brake_tilt_update` leaves `target ≠ 0`: the code only suppresses
the feature when the damper is strictly greater than 2. -/
theorem brake_tilt_update_damper_two_counterexample :
    btQuiet.factor < 0 ∧ motorMid.braking = true ∧ motorMid.abs_erpm > 2000 ∧
    sign (-5) ≠ motorMid.erpm_sign ∧ (2:ℚ) ≤ downhill_damper motorMid atrDown2 ∧
    ¬ (brake_tilt_update btQuiet motorMid atrDown2 cfgStd (-5) imuZero (1/100)
        false).target = 0 := by
  norm_num [brake_tilt_update, brake_tilt_target_phase, pitch_drop_phase,
    hold_tilt_activation_phase, hold_tilt_behavior_phase, gate_condition,
    downhill_damper, sign, rate_limitf, braketilt_step_size,
    btQuiet, motorMid, atrDown2, cfgStd, imuZero, abs_of_nonneg, abs_of_nonpos]

/-- C2 (amended): whenever the braking activation condition holds (factor
negative, motor braking, |erpm| above 2000, balance-offset sign differing
from the motor direction sign) and the downhill damper is strictly greater
than 2, `brake_tilt_update` sets `target` to 0. -/
theorem brake_tilt_update_steep_downhill_zero (bt : BrakeTilt) (motor : MotorData)
    (atr : ATR) (config : RefloatConfig) (bo : ℚ) (imu : IMU) (dt : ℚ) (wheelslip : Bool)
    (hgate : ¬ gate_condition atr config wheelslip)
    (hf : bt.factor < 0) (hb : motor.braking = true) (he : motor.abs_erpm > 2000)
    (hs : sign bo ≠ motor.erpm_sign) (hd : downhill_damper motor atr > 2) :
    (brake_tilt_update bt motor atr config bo imu dt wheelslip).target = 0 := by
  have htp : (brake_tilt_target_phase bt motor atr bo).target = 0 := by
    simp [brake_tilt_target_phase, hf, hb, he, hs, hd]
  simp only [brake_tilt_update, if_neg hgate]
  split_ifs with hh
  · rw [behavior_phase_target, activation_phase_target, pitch_drop_phase_target, htp]
  · simp only [activation_phase_target, pitch_drop_phase_target, htp]

/-- C2 witness: the steep-downhill scenario from the spec (accelDiff -3,
damper 5/2) forces `target = 0`. -/
theorem brake_tilt_update_steep_downhill_zero_witness :
    (brake_tilt_update btQuiet motorMid atrDown3 cfgStd (-5) imuZero (1/100)
      false).target = 0 :=
  brake_tilt_update_steep_downhill_zero btQuiet motorMid atrDown3 cfgStd (-5) imuZero
    (1/100) false
    (by norm_num [gate_condition, atrDown3, cfgStd])
    (by norm_num [btQuiet]) rfl (by norm_num [motorMid])
    (by norm_num [sign, motorMid])
    (by norm_num [downhill_damper, motorMid, atrDown3, abs_of_nonpos])

/-- C3 counterexample: at strength 25 (nonzero), `brake_tilt_configure`
stores a strictly positive factor, refuting "never positive" over all
strength values. -/
theorem brake_tilt_configure_positive_factor_counterexample :
    cfgStrong.braketilt_strength ≠ 0 ∧
    0 < (brake_tilt_configure btQuiet cfgStrong).factor := by
  norm_num [brake_tilt_configure, cfgStrong, btQuiet]

/-- C3 (amended): for every strength parameter below 45/2 (which covers the
bounded configuration range), the factor stored by `brake_tilt_configure` is
never positive: it is 0 exactly when the strength is 0 and strictly negative
otherwise. -/
theorem brake_tilt_configure_factor_sign (bt : BrakeTilt) (config : RefloatConfig)
    (hs : config.braketilt_strength < 45/2) :
    (brake_tilt_configure bt config).factor ≤ 0 ∧
    ((brake_tilt_configure bt config).factor = 0 ↔ config.braketilt_strength = 0) ∧
    (config.braketilt_strength ≠ 0 → (brake_tilt_configure bt config).factor < 0) := by
  by_cases h : config.braketilt_strength = 0
  · simp [brake_tilt_configure, h]
  · have hneg : -(1/2 + (20 - config.braketilt_strength) / 5) < (0:ℚ) := by linarith
    simp only [brake_tilt_configure, if_neg h]
    exact ⟨le_of_lt hneg, ⟨fun h0 => absurd h0 (ne_of_lt hneg), fun h0 => absurd h0 h⟩,
      fun _ => hneg⟩

/-- C3 witness: at the standard strength 10 the stored factor is strictly
negative. -/
theorem brake_tilt_configure_factor_sign_witness :
    (brake_tilt_configure btQuiet cfgStd).factor < 0 :=
  (brake_tilt_configure_factor_sign btQuiet cfgStd (by norm_num [cfgStd])).2.2
    (by norm_num [cfgStd])

/-- C4: on a tick that reaches the rate-limiting step with `|erpm| < 800`
(hold-tilt inactive and a non-negative min-target configured), the step used
is the "on" step size unscaled — the `|target| > |setpoint|` case cannot fire
because `target` is forced to 0 below the 2000 erpm activation threshold —
and below 500 erpm the chosen step is additionally halved. -/
theorem brake_tilt_update_low_erpm_step (bt : BrakeTilt) (motor : MotorData) (atr : ATR)
    (config : RefloatConfig) (bo : ℚ) (imu : IMU) (dt : ℚ) (wheelslip : Bool)
    (hgate : ¬ gate_condition atr config wheelslip)
    (hact : bt.hold_tilt_active = false)
    (hmin : 0 ≤ config.hold_tilt_min_target)
    (h800 : motor.abs_erpm < 800) :
    (brake_tilt_update bt motor atr config bo imu dt wheelslip).target = 0 ∧
    (500 ≤ motor.abs_erpm →
      (brake_tilt_update bt motor atr config bo imu dt wheelslip).setpoint =
        rate_limitf bt.setpoint 0 atr.on_step_size) ∧
    (motor.abs_erpm < 500 →
      (brake_tilt_update bt motor atr config bo imu dt wheelslip).setpoint =
        rate_limitf bt.setpoint 0 (atr.on_step_size / 2)) := by
  have h2000 : ¬ (bt.factor < 0 ∧ motor.braking = true ∧ motor.abs_erpm > 2000) := by
    rintro ⟨-, -, hgt⟩; linarith
  have htp : brake_tilt_target_phase bt motor atr bo = { bt with target := 0 } := by
    rw [brake_tilt_target_phase, if_neg h2000]
  have hpd : pitch_drop_phase { bt with target := 0 } config imu dt wheelslip =
      { bt with target := 0, pitch_timer := 0, hold_tilt_pitch_drop_detected := 0 } := by
    rw [pitch_drop_phase, if_neg]
    rintro ⟨-, habs, -⟩
    simp only [abs_zero] at habs
    exact absurd habs (not_lt.mpr hmin)
  have hha : hold_tilt_activation_phase
      { bt with target := 0, pitch_timer := 0, hold_tilt_pitch_drop_detected := 0 } config =
      { bt with target := 0, pitch_timer := 0, hold_tilt_pitch_drop_detected := 0 } := by
    rw [hold_tilt_activation_phase, if_neg]
    rintro ⟨-, hne⟩
    exact hne rfl
  have hnot : ¬ (|bt.setpoint| < 0) := not_lt.mpr (abs_nonneg bt.setpoint)
  simp only [hact] at htp hpd hha
  refine ⟨?_, fun h500 => ?_, fun h500 => ?_⟩
  · simp [brake_tilt_update, if_neg hgate, htp, hpd, hha, hact]
  · have h500n : ¬ motor.abs_erpm < 500 := not_lt.mpr h500
    simp [brake_tilt_update, if_neg hgate, htp, hpd, hha, hact, braketilt_step_size,
      h800, h500n, hnot]
  · simp [brake_tilt_update, if_neg hgate, htp, hpd, hha, hact, braketilt_step_size,
      h800, h500, hnot]

/-- C4 witness: a concrete tick at |erpm| = 600 applies the unscaled "on"
step size. -/
theorem brake_tilt_update_low_erpm_step_witness :
    (brake_tilt_update btQuiet motorSlow atrFlat cfgStd 0 imuZero 0 false).setpoint =
      rate_limitf btQuiet.setpoint 0 atrFlat.on_step_size :=
  (brake_tilt_update_low_erpm_step btQuiet motorSlow atrFlat cfgStd 0 imuZero 0 false
    (by norm_num [gate_condition, atrFlat, cfgStd]) rfl
    (by norm_num [cfgStd]) (by norm_num [motorSlow])).2.1 (by norm_num [motorSlow])

/-- While hold-tilt is already active the pitch-drop section takes its else
branch and just clears the window timer and latch. -/
theorem pitch_drop_phase_of_active (s : BrakeTilt) (config : RefloatConfig) (imu : IMU)
    (dt : ℚ) (w : Bool) (h : s.hold_tilt_active = true) :
    pitch_drop_phase s config imu dt w =
      { s with pitch_timer := 0, hold_tilt_pitch_drop_detected := 0 } := by
  rw [pitch_drop_phase, if_neg]
  rintro ⟨h2, -⟩
  rw [h] at h2
  exact Bool.noConfusion h2

/-- While hold-tilt is already active the activation section is a no-op. -/
theorem activation_phase_of_active (s : BrakeTilt) (config : RefloatConfig)
    (h : s.hold_tilt_active = true) :
    hold_tilt_activation_phase s config = s := by
  rw [hold_tilt_activation_phase, if_neg]
  rintro ⟨h2, -⟩
  rw [h] at h2
  exact Bool.noConfusion h2

/-- One non-gate tick taken from a hold-tilt-active state: the counter drops
by one, activity persists exactly while the decremented counter is positive,
the held value is unchanged, and the setpoint is the held value plus the
half-difference correction (the call returns before the rate limiter). -/
theorem update_hold_tick (s : BrakeTilt) (motor : MotorData) (atr : ATR)
    (config : RefloatConfig) (bo : ℚ) (imu : IMU) (dt : ℚ) (wheelslip : Bool)
    (hgate : ¬ gate_condition atr config wheelslip)
    (hact : s.hold_tilt_active = true) (hc : 1 ≤ s.hold_counter) :
    (brake_tilt_update s motor atr config bo imu dt wheelslip).hold_counter =
      s.hold_counter - 1 ∧
    ((brake_tilt_update s motor atr config bo imu dt wheelslip).hold_tilt_active = true ↔
      1 < s.hold_counter) ∧
    (brake_tilt_update s motor atr config bo imu dt wheelslip).hold_tilt_value =
      s.hold_tilt_value ∧
    (brake_tilt_update s motor atr config bo imu dt wheelslip).setpoint =
      s.hold_tilt_value + (if imu.balance_pitch < s.hold_tilt_value then
        1/2 * (s.hold_tilt_value - imu.balance_pitch) else 0) := by
  have h1 : (brake_tilt_target_phase s motor atr bo).hold_tilt_active = true := by
    simp [hact]
  have hPD := pitch_drop_phase_of_active (brake_tilt_target_phase s motor atr bo)
    config imu dt wheelslip h1
  have hA := activation_phase_of_active
    ({ brake_tilt_target_phase s motor atr bo with
      pitch_timer := 0, hold_tilt_pitch_drop_detected := 0 }) config (by simp [hact])
  have hupd : brake_tilt_update s motor atr config bo imu dt wheelslip =
      hold_tilt_behavior_phase
        ({ brake_tilt_target_phase s motor atr bo with
          pitch_timer := 0, hold_tilt_pitch_drop_detected := 0 }) imu := by
    simp only [brake_tilt_update, if_neg hgate, hPD, hA, if_pos]
    rw [if_pos]
    simp [hact]
  rw [hupd]
  simp only [hold_tilt_behavior_phase]
  split_ifs with hp hcl hcl <;>
    refine ⟨?_, ?_, ?_, ?_⟩ <;> simp_all <;> omega

/-- If the activation section left hold-tilt inactive, it also left the
counter alone. -/
theorem activation_phase_inactive_counter (s : BrakeTilt) (config : RefloatConfig)
    (h : (hold_tilt_activation_phase s config).hold_tilt_active = false) :
    (hold_tilt_activation_phase s config).hold_counter = s.hold_counter := by
  unfold hold_tilt_activation_phase at h ⊢
  split_ifs at h ⊢
  simp_all

/-- If the activation section left hold-tilt inactive, it was already
inactive on entry. -/
theorem activation_phase_inactive_source (s : BrakeTilt) (config : RefloatConfig)
    (h : (hold_tilt_activation_phase s config).hold_tilt_active = false) :
    s.hold_tilt_active = false := by
  unfold hold_tilt_activation_phase at h
  split_ifs at h
  simp_all

/-- Each `brake_tilt_winddown` call multiplies the setpoint by 995/1000. -/
@[simp] theorem winddown_setpoint (s : BrakeTilt) :
    (brake_tilt_winddown s).setpoint = s.setpoint * (995/1000) := by
  simp only [brake_tilt_winddown]; split_ifs <;> rfl

/-- Each `brake_tilt_winddown` call multiplies the target by 99/100. -/
@[simp] theorem winddown_target (s : BrakeTilt) :
    (brake_tilt_winddown s).target = s.target * (99/100) := by
  simp only [brake_tilt_winddown]; split_ifs <;> rfl

/-- `brake_tilt_update` never drives `hold_counter` negative. -/
theorem update_hold_counter_nonneg (s : BrakeTilt) (motor : MotorData) (atr : ATR)
    (config : RefloatConfig) (bo : ℚ) (imu : IMU) (dt : ℚ) (wheelslip : Bool)
    (h : 0 ≤ s.hold_counter) :
    0 ≤ (brake_tilt_update s motor atr config bo imu dt wheelslip).hold_counter := by
  by_cases hg : gate_condition atr config wheelslip
  · simp only [brake_tilt_update, if_pos hg]
    split_ifs <;> simp_all
  · simp only [brake_tilt_update, if_neg hg]
    split_ifs with hA
    · simp only [hold_tilt_behavior_phase]
      split_ifs <;> simp_all <;> omega
    · have hA' : (hold_tilt_activation_phase (pitch_drop_phase
          (brake_tilt_target_phase s motor atr bo) config imu dt wheelslip)
          config).hold_tilt_active = false := by simpa using hA
      have hcnt := activation_phase_inactive_counter _ config hA'
      simpa [hcnt] using h

/-- C5: on a tick where hold-tilt is inactive, the freshly computed `target`
exceeds the hold-tilt minimum, wheelslip is off, the monitoring window opened
on an earlier tick is still open (`pitch_timer > 0`), and the recorded
baseline pitch minus the current pitch exceeds the configured delta
threshold, the activation step of that same call engages hold-tilt with the
configured hold angle and timeout and clears the window timer and latch; the
returned state keeps the hold angle, cleared timer and cleared latch. -/
theorem brake_tilt_update_pitch_drop_activation (bt : BrakeTilt) (motor : MotorData)
    (atr : ATR) (config : RefloatConfig) (bo : ℚ) (imu : IMU) (dt : ℚ) (wheelslip : Bool)
    (hgate : ¬ gate_condition atr config wheelslip)
    (hact : bt.hold_tilt_active = false)
    (hws : wheelslip = false)
    (htgt : |(brake_tilt_target_phase bt motor atr bo).target| >
      config.hold_tilt_min_target)
    (hwin : 0 < bt.pitch_timer)
    (hdrop : bt.pitch_at_trigger - imu.pitch > config.hold_tilt_pitch_delta_threshold) :
    (hold_tilt_activation_phase (pitch_drop_phase (brake_tilt_target_phase bt motor atr bo)
        config imu dt wheelslip) config).hold_tilt_active = true ∧
    (hold_tilt_activation_phase (pitch_drop_phase (brake_tilt_target_phase bt motor atr bo)
        config imu dt wheelslip) config).hold_tilt_value = config.hold_tilt_angle ∧
    (hold_tilt_activation_phase (pitch_drop_phase (brake_tilt_target_phase bt motor atr bo)
        config imu dt wheelslip) config).hold_counter = config.hold_tilt_timeout ∧
    (hold_tilt_activation_phase (pitch_drop_phase (brake_tilt_target_phase bt motor atr bo)
        config imu dt wheelslip) config).pitch_timer = 0 ∧
    (hold_tilt_activation_phase (pitch_drop_phase (brake_tilt_target_phase bt motor atr bo)
        config imu dt wheelslip) config).hold_tilt_pitch_drop_detected = 0 ∧
    (brake_tilt_update bt motor atr config bo imu dt wheelslip).hold_tilt_value =
      config.hold_tilt_angle ∧
    (brake_tilt_update bt motor atr config bo imu dt wheelslip).pitch_timer = 0 ∧
    (brake_tilt_update bt motor atr config bo imu dt wheelslip).hold_tilt_pitch_drop_detected
      = 0 := by
  have hg1 : (brake_tilt_target_phase bt motor atr bo).hold_tilt_active = false ∧
      |(brake_tilt_target_phase bt motor atr bo).target| > config.hold_tilt_min_target ∧
      wheelslip = false := ⟨by simp [hact], htgt, hws⟩
  have hnt : ¬ (brake_tilt_target_phase bt motor atr bo).pitch_timer ≤ 0 := by
    rw [target_phase_pitch_timer]; linarith
  have hdel : (brake_tilt_target_phase bt motor atr bo).pitch_at_trigger - imu.pitch >
      config.hold_tilt_pitch_delta_threshold := by
    rw [target_phase_pitch_at_trigger]; exact hdrop
  have hPD : pitch_drop_phase (brake_tilt_target_phase bt motor atr bo) config imu dt
      wheelslip =
      { brake_tilt_target_phase bt motor atr bo with
        hold_tilt_pitch_drop_detected := 1
        pitch_timer := (brake_tilt_target_phase bt motor atr bo).pitch_timer - dt } := by
    rw [pitch_drop_phase, if_pos hg1, if_neg hnt, if_pos hdel]
  have hA : hold_tilt_activation_phase (pitch_drop_phase
      (brake_tilt_target_phase bt motor atr bo) config imu dt wheelslip) config =
      { brake_tilt_target_phase bt motor atr bo with
        hold_tilt_active := true
        hold_tilt_value := config.hold_tilt_angle
        hold_counter := config.hold_tilt_timeout
        pitch_timer := 0
        hold_tilt_pitch_drop_detected := 0 } := by
    rw [hPD, hold_tilt_activation_phase, if_pos]
    exact ⟨by simp [hact], one_ne_zero⟩
  have hupd : brake_tilt_update bt motor atr config bo imu dt wheelslip =
      hold_tilt_behavior_phase
        ({ brake_tilt_target_phase bt motor atr bo with
          hold_tilt_active := true
          hold_tilt_value := config.hold_tilt_angle
          hold_counter := config.hold_tilt_timeout
          pitch_timer := 0
          hold_tilt_pitch_drop_detected := 0 }) imu := by
    simp only [brake_tilt_update, if_neg hgate, hA, if_pos]
  rw [hA, hupd]
  refine ⟨rfl, rfl, rfl, rfl, rfl, ?_, ?_, ?_⟩
  · rw [behavior_phase_hold_tilt_value]
  · rw [behavior_phase_pitch_timer]
  · rw [behavior_phase_latch]

/-- C5 witness: from a state with an open window (baseline pitch 5, timer
1/10) a pitch reading of 3 activates hold-tilt on that tick; the returned
state keeps the configured hold angle 7. -/
theorem brake_tilt_update_pitch_drop_activation_witness :
    (brake_tilt_update btWindow motorBrake atrFlat cfgStd (-5) imuDrop (1/100)
      false).hold_tilt_value = cfgStd.hold_tilt_angle :=
  (brake_tilt_update_pitch_drop_activation btWindow motorBrake atrFlat cfgStd (-5) imuDrop
    (1/100) false
    (by norm_num [gate_condition, atrFlat, cfgStd]) rfl rfl
    (by norm_num [brake_tilt_target_phase, downhill_damper, sign, btWindow, motorBrake,
      atrFlat, cfgStd, abs_of_nonneg, abs_of_nonpos])
    (by norm_num [btWindow])
    (by norm_num [btWindow, imuDrop, cfgStd])).2.2.2.2.2.1

/-- C6: from the moment hold-tilt is active with counter `T ≥ 1`, over
non-gate ticks the counter falls by one per tick, hold-tilt remains active
exactly while fewer than `T` ticks have elapsed (so it deactivates on the
`T`-th tick, the activation tick counting as the first), every one of those
ticks sets the setpoint from the held value (returning before the rate
limiter), and a call never leaves the counter negative. -/
theorem brake_tilt_update_hold_countdown (bt : BrakeTilt) (motor : MotorData) (atr : ATR)
    (config : RefloatConfig) (bo : ℚ) (imu : IMU) (dt : ℚ) (wheelslip : Bool) (T : ℤ)
    (hgate : ¬ gate_condition atr config wheelslip)
    (hact : bt.hold_tilt_active = true) (hc : bt.hold_counter = T) (hT : 1 ≤ T)
    (j : ℕ) (hj : (j:ℤ) ≤ T) :
    ((fun s => brake_tilt_update s motor atr config bo imu dt wheelslip)^[j]
        bt).hold_counter = T - j ∧
    (((fun s => brake_tilt_update s motor atr config bo imu dt wheelslip)^[j]
        bt).hold_tilt_active = true ↔ (j:ℤ) < T) ∧
    (1 ≤ j →
      ((fun s => brake_tilt_update s motor atr config bo imu dt wheelslip)^[j]
          bt).hold_tilt_value = bt.hold_tilt_value ∧
      ((fun s => brake_tilt_update s motor atr config bo imu dt wheelslip)^[j]
          bt).setpoint = bt.hold_tilt_value +
        (if imu.balance_pitch < bt.hold_tilt_value then
          1/2 * (bt.hold_tilt_value - imu.balance_pitch) else 0)) ∧
    (∀ s : BrakeTilt, 0 ≤ s.hold_counter →
      0 ≤ (brake_tilt_update s motor atr config bo imu dt wheelslip).hold_counter) := by
  have key : ∀ k : ℕ, (k:ℤ) ≤ T →
      ((fun s => brake_tilt_update s motor atr config bo imu dt wheelslip)^[k]
          bt).hold_counter = T - k ∧
      (((fun s => brake_tilt_update s motor atr config bo imu dt wheelslip)^[k]
          bt).hold_tilt_active = true ↔ (k:ℤ) < T) ∧
      (1 ≤ k →
        ((fun s => brake_tilt_update s motor atr config bo imu dt wheelslip)^[k]
            bt).hold_tilt_value = bt.hold_tilt_value ∧
        ((fun s => brake_tilt_update s motor atr config bo imu dt wheelslip)^[k]
            bt).setpoint = bt.hold_tilt_value +
          (if imu.balance_pitch < bt.hold_tilt_value then
            1/2 * (bt.hold_tilt_value - imu.balance_pitch) else 0)) := by
    intro k
    induction k with
    | zero =>
      intro _
      simp only [Function.iterate_zero_apply]
      refine ⟨by simpa using hc, ?_, fun h1 => absurd h1 (by norm_num)⟩
      simp only [hact, Nat.cast_zero]
      constructor
      · intro _; omega
      · intro _; trivial
    | succ k ih =>
      intro hk1
      have hkT : (k:ℤ) < T := by push_cast at hk1 ⊢; omega
      obtain ⟨ihc, iha, ihv⟩ := ih (le_of_lt hkT)
      have hactk := iha.mpr hkT
      have hck : 1 ≤ ((fun s => brake_tilt_update s motor atr config bo imu dt
          wheelslip)^[k] bt).hold_counter := by rw [ihc]; omega
      have step := update_hold_tick _ motor atr config bo imu dt wheelslip hgate hactk hck
      have hv : ((fun s => brake_tilt_update s motor atr config bo imu dt
          wheelslip)^[k] bt).hold_tilt_value = bt.hold_tilt_value := by
        rcases Nat.eq_zero_or_pos k with hk0 | hk0
        · subst hk0; simp
        · exact (ihv hk0).1
      rw [Function.iterate_succ_apply']
      refine ⟨?_, ?_, fun _ => ⟨?_, ?_⟩⟩
      · rw [step.1, ihc]; push_cast; ring
      · constructor
        · intro hh
          have := step.2.1.mp hh
          rw [ihc] at this
          push_cast
          omega
        · intro hh
          refine step.2.1.mpr ?_
          rw [ihc]
          push_cast at hh ⊢
          omega
      · rw [step.2.2.1, hv]
      · rw [step.2.2.2, hv]
  obtain ⟨k1, k2, k3⟩ := key j hj
  exact ⟨k1, k2, k3,
    fun s hs => update_hold_counter_nonneg s motor atr config bo imu dt wheelslip hs⟩

/-- C6 witness: from the hold state with counter 2, two non-gate ticks later
the counter is 0. -/
theorem brake_tilt_update_hold_countdown_witness :
    ((fun s => brake_tilt_update s motorBrake atrFlat cfgStd 0 imuZero (1/100)
        false)^[2] btHold).hold_counter = 0 := by
  have h := (brake_tilt_update_hold_countdown btHold motorBrake atrFlat cfgStd 0 imuZero
    (1/100) false 2
    (by norm_num [gate_condition, atrFlat, cfgStd]) rfl rfl (by norm_num)
    2 (by norm_num)).1
  simpa using h

/-- C7 counterexample: on a state where hold-tilt is inactive but the counter
is (unreachably) stale at 7, `brake_tilt_winddown` leaves the counter at 7:
the clearing of `hold_counter` is conditional on hold-tilt being active, so
"holdCounter == 0 after every call" does not hold for arbitrary states. -/
theorem brake_tilt_winddown_stale_counter_counterexample :
    btStale.hold_tilt_active = false ∧
    ¬ (brake_tilt_winddown btStale).hold_counter = 0 := by
  norm_num [brake_tilt_winddown, btStale]

/-- C7 (amended): for every state satisfying the hold invariant (inactive
implies zero counter — true of every reachable state), `brake_tilt_winddown`
multiplies the setpoint by exactly 995/1000 and the target by exactly 99/100
and leaves hold-tilt inactive with a zero counter; over repeated calls the
magnitudes are non-increasing and decay geometrically. -/
theorem brake_tilt_winddown_decay (bt : BrakeTilt)
    (hinv : bt.hold_tilt_active = false → bt.hold_counter = 0) :
    (brake_tilt_winddown bt).setpoint = bt.setpoint * (995/1000) ∧
    (brake_tilt_winddown bt).target = bt.target * (99/100) ∧
    (brake_tilt_winddown bt).hold_tilt_active = false ∧
    (brake_tilt_winddown bt).hold_counter = 0 ∧
    (∀ n : ℕ, (brake_tilt_winddown^[n] bt).setpoint = (995/1000)^n * bt.setpoint ∧
      (brake_tilt_winddown^[n] bt).target = (99/100)^n * bt.target) ∧
    (∀ n : ℕ, |(brake_tilt_winddown^[n+1] bt).setpoint| ≤
        |(brake_tilt_winddown^[n] bt).setpoint| ∧
      |(brake_tilt_winddown^[n+1] bt).target| ≤ |(brake_tilt_winddown^[n] bt).target|) := by
  have hgeo : ∀ n : ℕ,
      (brake_tilt_winddown^[n] bt).setpoint = (995/1000)^n * bt.setpoint ∧
      (brake_tilt_winddown^[n] bt).target = (99/100)^n * bt.target := by
    intro n
    induction n with
    | zero => simp
    | succ n ih =>
      rw [Function.iterate_succ_apply', winddown_setpoint, winddown_target, ih.1, ih.2]
      constructor <;> ring
  refine ⟨winddown_setpoint bt, winddown_target bt, ?_, ?_, hgeo, ?_⟩
  · simp only [brake_tilt_winddown]
    split_ifs with h <;> simp_all
  · simp only [brake_tilt_winddown]
    split_ifs with h
    · rfl
    · exact hinv (by simpa using h)
  · intro n
    obtain ⟨h1, h2⟩ := hgeo n
    obtain ⟨h1', h2'⟩ := hgeo (n+1)
    rw [h1, h2, h1', h2']
    have hs1 : |(995/1000:ℚ)| ≤ 1 := by
      rw [abs_of_nonneg (by norm_num : (0:ℚ) ≤ 995/1000)]; norm_num
    have ht1 : |(99/100:ℚ)| ≤ 1 := by
      rw [abs_of_nonneg (by norm_num : (0:ℚ) ≤ 99/100)]; norm_num
    constructor
    · rw [abs_mul, abs_mul, abs_pow, abs_pow]
      exact mul_le_mul_of_nonneg_right
        (pow_le_pow_of_le_one (abs_nonneg _) hs1 (Nat.le_succ n)) (abs_nonneg _)
    · rw [abs_mul, abs_mul, abs_pow, abs_pow]
      exact mul_le_mul_of_nonneg_right
        (pow_le_pow_of_le_one (abs_nonneg _) ht1 (Nat.le_succ n)) (abs_nonneg _)

/-- C7 witness: from the quiescent state (which satisfies the hold
invariant) a winddown call leaves the counter at 0. -/
theorem brake_tilt_winddown_decay_witness :
    (brake_tilt_winddown btQuiet).hold_counter = 0 :=
  (brake_tilt_winddown_decay btQuiet (fun _ => rfl)).2.2.2.1

/-- C8: on the path of `brake_tilt_update` that evaluates
`balance_offset / factor / downhill_damper` (factor negative, braking, |erpm|
above 2000, sign mismatch, gate off), the first divisor is nonzero because
`factor < 0` and the second is nonzero because the damper is always at least
1; when the damper does not exceed 2 the returned `target` is exactly that
quotient. -/
theorem brake_tilt_update_division_guarded (bt : BrakeTilt) (motor : MotorData)
    (atr : ATR) (config : RefloatConfig) (bo : ℚ) (imu : IMU) (dt : ℚ) (wheelslip : Bool)
    (hgate : ¬ gate_condition atr config wheelslip)
    (hf : bt.factor < 0) (hb : motor.braking = true) (he : motor.abs_erpm > 2000)
    (hs : sign bo ≠ motor.erpm_sign) :
    1 ≤ downhill_damper motor atr ∧ bt.factor ≠ 0 ∧ downhill_damper motor atr ≠ 0 ∧
    (downhill_damper motor atr ≤ 2 →
      (brake_tilt_update bt motor atr config bo imu dt wheelslip).target =
        bo / bt.factor / downhill_damper motor atr) := by
  have hd1 : 1 ≤ downhill_damper motor atr := by
    unfold downhill_damper
    split_ifs
    · have := abs_nonneg atr.accel_diff
      linarith
    · exact le_refl _
  refine ⟨hd1, ne_of_lt hf, ne_of_gt (lt_of_lt_of_le zero_lt_one hd1), fun hd2 => ?_⟩
  have htp : (brake_tilt_target_phase bt motor atr bo).target =
      bo / bt.factor / downhill_damper motor atr := by
    simp [brake_tilt_target_phase, hf, hb, he, hs, not_lt.mpr hd2]
  simp only [brake_tilt_update, if_neg hgate]
  split_ifs with hh
  · rw [behavior_phase_target, activation_phase_target, pitch_drop_phase_target, htp]
  · simp only [activation_phase_target, pitch_drop_phase_target, htp]

/-- C8 witness: a concrete braking tick on level ground computes `target` as
the guarded quotient (damper 1). -/
theorem brake_tilt_update_division_guarded_witness :
    (brake_tilt_update btQuiet motorBrake atrFlat cfgStd (-5) imuZero (1/100)
        false).target = -5 / btQuiet.factor / downhill_damper motorBrake atrFlat :=
  (brake_tilt_update_division_guarded btQuiet motorBrake atrFlat cfgStd (-5) imuZero
    (1/100) false
    (by norm_num [gate_condition, atrFlat, cfgStd])
    (by norm_num [btQuiet]) rfl (by norm_num [motorBrake])
    (by norm_num [sign, motorBrake])).2.2.2
    (by norm_num [downhill_damper, motorBrake, atrFlat])

/-- C9: the pitch-drop latch never persists across ticks: `brake_tilt_reset`
clears it, every non-gate call of `brake_tilt_update` ends with it cleared
(a latch set during the tick is consumed by the activation step in the same
call), and any call preserves a cleared latch. -/
theorem brake_tilt_update_latch_cleared (bt : BrakeTilt) (motor : MotorData) (atr : ATR)
    (config : RefloatConfig) (bo : ℚ) (imu : IMU) (dt : ℚ) (wheelslip : Bool) :
    (brake_tilt_reset bt).hold_tilt_pitch_drop_detected = 0 ∧
    (¬ gate_condition atr config wheelslip →
      (brake_tilt_update bt motor atr config bo imu dt
        wheelslip).hold_tilt_pitch_drop_detected = 0) ∧
    (bt.hold_tilt_pitch_drop_detected = 0 →
      (brake_tilt_update bt motor atr config bo imu dt
        wheelslip).hold_tilt_pitch_drop_detected = 0) := by
  have key : ∀ s : BrakeTilt,
      (hold_tilt_activation_phase (pitch_drop_phase s config imu dt wheelslip)
        config).hold_tilt_pitch_drop_detected = 0 := by
    intro s
    unfold pitch_drop_phase hold_tilt_activation_phase
    split_ifs <;> simp_all
  have hng : ¬ gate_condition atr config wheelslip →
      (brake_tilt_update bt motor atr config bo imu dt
        wheelslip).hold_tilt_pitch_drop_detected = 0 := by
    intro hgate
    simp only [brake_tilt_update, if_neg hgate]
    split_ifs with hh
    · rw [behavior_phase_latch, key]
    · simpa using key _
  refine ⟨rfl, hng, fun h0 => ?_⟩
  by_cases hg : gate_condition atr config wheelslip
  · simp only [brake_tilt_update, if_pos hg]
    split_ifs <;> simp_all
  · exact hng hg

/-- C9 witness: a gate tick (wheelslip) from a state with a cleared latch
returns a cleared latch. -/
theorem brake_tilt_update_latch_cleared_witness :
    (brake_tilt_update btQuiet motorBrake atrFlat cfgStd 0 imuZero 0
        true).hold_tilt_pitch_drop_detected = 0 :=
  (brake_tilt_update_latch_cleared btQuiet motorBrake atrFlat cfgStd 0 imuZero 0
    true).2.2 rfl

/-- C10: the invariant "hold-tilt inactive implies `hold_counter = 0`" is
established by `brake_tilt_init` and `brake_tilt_reset` and preserved by
every call of `brake_tilt_update` and `brake_tilt_winddown`. -/
theorem brake_tilt_hold_invariant (bt : BrakeTilt) (motor : MotorData) (atr : ATR)
    (config : RefloatConfig) (bo : ℚ) (imu : IMU) (dt : ℚ) (wheelslip : Bool) :
    ((brake_tilt_init bt).hold_tilt_active = false →
      (brake_tilt_init bt).hold_counter = 0) ∧
    ((brake_tilt_reset bt).hold_tilt_active = false →
      (brake_tilt_reset bt).hold_counter = 0) ∧
    ((bt.hold_tilt_active = false → bt.hold_counter = 0) →
      ((brake_tilt_update bt motor atr config bo imu dt wheelslip).hold_tilt_active =
          false →
        (brake_tilt_update bt motor atr config bo imu dt wheelslip).hold_counter = 0)) ∧
    ((bt.hold_tilt_active = false → bt.hold_counter = 0) →
      ((brake_tilt_winddown bt).hold_tilt_active = false →
        (brake_tilt_winddown bt).hold_counter = 0)) := by
  refine ⟨fun _ => rfl, fun _ => rfl, fun hinv => ?_, fun hinv => ?_⟩
  · by_cases hg : gate_condition atr config wheelslip
    · simp only [brake_tilt_update, if_pos hg]
      split_ifs with h
      · intro _; rfl
      · intro _; exact hinv (by simpa using h)
    · simp only [brake_tilt_update, if_neg hg]
      split_ifs with hA
      · simp only [hold_tilt_behavior_phase]
        split_ifs <;> simp_all
      · intro _
        have hA' : (hold_tilt_activation_phase (pitch_drop_phase
            (brake_tilt_target_phase bt motor atr bo) config imu dt wheelslip)
            config).hold_tilt_active = false := by simpa using hA
        have hcnt := activation_phase_inactive_counter _ config hA'
        have hsrc := activation_phase_inactive_source _ config hA'
        simp only [pitch_drop_phase_hold_tilt_active, target_phase_hold_tilt_active]
          at hsrc
        simp only [hcnt, pitch_drop_phase_hold_counter, target_phase_hold_counter]
        exact hinv hsrc
  · simp only [brake_tilt_winddown]
    split_ifs with h
    · intro _; rfl
    · intro _
      exact hinv (by simpa using h)

/-- C10 witness: a wheelslip tick from the quiescent state preserves the
invariant concretely — the returned counter is 0. -/
theorem brake_tilt_hold_invariant_witness :
    (brake_tilt_update btQuiet motorBrake atrFlat cfgStd 0 imuZero 0
        true).hold_counter = 0 :=
  (brake_tilt_hold_invariant btQuiet motorBrake atrFlat cfgStd 0 imuZero 0 true).2.2.1
    (fun _ => rfl)
    (by norm_num [brake_tilt_update, gate_condition, btQuiet])

end Refloat
